import Mathlib

/-!
Verification development for the `rag-with-gpt5` repository.

The Python services under `app/services` are shallowly embedded as Lean
definitions:

* `DocumentService._chunk_text`  → `chunkGo` / `chunk_text`
* `LLMService.generate_chat_completion` (parameter shaping) → `completionParams`
* `LLMService`'s tenacity retry policy (3 attempts) → `retryThrice`
* `VectorService.similarity_search` → `similarity_search_sql` (semantics of the
  SQL statement the method sends to the store) and `similarity_search_method`
  (the surrounding Python method with its threshold defaulting)
* `VectorService.add_document_chunks` → `add_document_chunks`
* `DocumentService.create_document`   → `create_document`
* `RAGService._get_or_create_conversation` → `_get_or_create_conversation`
* `RAGService._build_prompt`  → `_build_prompt`
* `RAGService.process_query`  → `process_query`

Database sessions are modelled by explicit state records holding the committed
rows and the session-pending rows; `commit` moves pending rows into the
committed part atomically and `rollback` discards them, matching SQLAlchemy
session semantics as used by the services.  Awaited external calls (the OpenAI
client, the pgvector store) are passed in as explicit arguments of `Except`
type.  Python `or`-defaulting of optional arguments is modelled by `pyOrNat` /
`pyOrRat` / `pyOrReal`, which reproduce Python falsiness of `None` and `0`.
-/

namespace RagWithGpt

/-- Settings from `app/config.py` restricted to the fields the services read. -/
structure Settings where
  openai_model : String
  llm_temperature : ℚ
  llm_max_tokens : ℕ
  rag_top_k : ℕ
  rag_similarity_threshold : ℝ
  chunk_size : ℕ
  chunk_overlap : ℕ

/-- The defaults declared in `app/config.py`. -/
noncomputable def defaultSettings : Settings :=
  { openai_model := "gpt-5-nano"
    llm_temperature := 0
    llm_max_tokens := 2048
    rag_top_k := 5
    rag_similarity_threshold := 0.4
    chunk_size := 1000
    chunk_overlap := 200 }

/-- Python `x or d` for an optional integer argument: `None` and `0` are falsy. -/
def pyOrNat (x : Option ℕ) (d : ℕ) : ℕ :=
  match x with
  | none => d
  | some v => if v = 0 then d else v

/-- Python `x or d` for an optional float argument (modelled as `ℚ`):
`None` and `0.0` are falsy. -/
def pyOrRat (x : Option ℚ) (d : ℚ) : ℚ :=
  match x with
  | none => d
  | some v => if v = 0 then d else v

/-- Python `x or d` for an optional float argument (modelled as `ℝ`):
`None` and `0.0` are falsy. -/
noncomputable def pyOrReal (x : Option ℝ) (d : ℝ) : ℝ :=
  match x with
  | none => d
  | some v => if v = 0 then d else v

/-!
## Chunker (`DocumentService._chunk_text`)

The Python loop is

```
start = 0
while start < len(text):
    end = start + chunk_size
    chunk = text[start:end]
    if len(chunk) > overlap or start == 0:
        chunks.append(chunk)
    start = end - overlap
```

`chunkGo` embeds the loop with an explicit fuel argument (structural recursion
so that concrete runs reduce by `decide`/`rfl`); each iteration consumes one
unit of fuel, and since the loop variable advances by `size - overlap ≥ 1` per
iteration whenever `overlap < size`, fuel `text.length` always suffices
(`chunkGo_fuel_indep` below shows the result is fuel-independent once the fuel
covers the remaining length, i.e. the loop terminates).  The pair also records
the window start so that coverage can be stated; `chunk_text` forgets it,
returning exactly the Python list of chunk strings (as `List Char`).
-/

/-- One loop iteration per unit of fuel; emits `(start, text[start:start+size])`
when the Python guard `len(chunk) > overlap or start == 0` holds. -/
def chunkGo (text : List Char) (size overlap : ℕ) : ℕ → ℕ → List (ℕ × List Char)
  | _, 0 => []
  | start, fuel+1 =>
    if start < text.length then
      let chunk := (text.drop start).take size
      let rest := chunkGo text size overlap (start + (size - overlap)) fuel
      if overlap < chunk.length ∨ start = 0 then (start, chunk) :: rest else rest
    else []

/-- `DocumentService._chunk_text` with the configured `chunk_size`/`chunk_overlap`
passed explicitly. -/
def chunk_text (text : List Char) (size overlap : ℕ) : List (List Char) :=
  (chunkGo text size overlap 0 text.length).map Prod.snd

/-!
## LLM service (`app/services/llm_service.py`)
-/

/-- Token usage block returned by `generate_chat_completion`. -/
structure Usage where
  prompt_tokens : ℕ
  completion_tokens : ℕ
  total_tokens : ℕ
deriving DecidableEq, Repr

/-- The dict returned by `LLMService.generate_chat_completion`. -/
structure LLMResponse where
  content : String
  model : String
  usage : Usage
  finish_reason : String
deriving DecidableEq, Repr

/-- A `{"role": ..., "content": ...}` chat message dict. -/
structure ChatMsg where
  role : String
  content : String
deriving DecidableEq, Repr

/-- The `completion_params` dict assembled by `generate_chat_completion`;
absent keys are `none`. -/
structure CompletionRequest where
  model : String
  messages : List ChatMsg
  max_tokens : Option ℕ := none
  max_completion_tokens : Option ℕ := none
  temperature : Option ℚ := none
deriving DecidableEq, Repr

/-- Python `s.startswith(p)`: character-level prefix test. -/
def startswith (s p : String) : Bool := s.toList.take p.toList.length == p.toList

/-- The parameter-shaping branch of `LLMService.generate_chat_completion`:
models starting with `gpt-5` get the cap as `max_completion_tokens` and no
temperature; all other models get `max_tokens` plus an explicit temperature.
The `or`-defaulting of the two optional overrides follows Python falsiness. -/
def completionParams (cfg : Settings) (messages : List ChatMsg)
    (temperature : Option ℚ) (max_tokens : Option ℕ) : CompletionRequest :=
  if startswith cfg.openai_model "gpt-5" then
    { model := cfg.openai_model
      messages := messages
      max_completion_tokens := some (pyOrNat max_tokens cfg.llm_max_tokens) }
  else
    { model := cfg.openai_model
      messages := messages
      max_tokens := some (pyOrNat max_tokens cfg.llm_max_tokens)
      temperature := some (pyOrRat temperature cfg.llm_temperature) }

/-- tenacity `@retry(stop=stop_after_attempt(3), ..., reraise=True)`: up to
three attempts, first success wins, after the third failure the last error is
re-raised.  `f n` is the outcome of attempt `n`. -/
def retryThrice {ε α : Type} (f : ℕ → Except ε α) : Except ε α :=
  match f 0 with
  | .ok v => .ok v
  | .error _ =>
    match f 1 with
    | .ok v => .ok v
    | .error _ => f 2

/-!
## RAG service (`app/services/rag_service.py`)
-/

/-- Error outcomes surfaced by the services: the `ValueError` raised for a
missing conversation, and provider failures propagated from the OpenAI client. -/
inductive RagError where
  | notFound (conversation_id : ℕ)
  | provider (msg : String)
deriving DecidableEq, Repr

/-- A row of the `messages` table as written by `process_query`; the
`meta_data` JSON is flattened into its three possible entries. -/
structure MessageRow where
  conversation_id : ℕ
  role : String
  content : String
  meta_model : Option String := none
  meta_usage : Option Usage := none
  meta_sources_count : Option ℕ := none
deriving DecidableEq, Repr

/-- The `ChunkData` row objects built by `VectorService.similarity_search`. -/
structure RetrievedChunk where
  id : ℕ
  document_id : ℕ
  chunk_text : String
  chunk_index : ℕ
  meta_data : List (String × String) := []
deriving DecidableEq, Repr

/-- Session-visible database state for the conversation/message tables:
committed rows plus rows added to the session but not yet committed. -/
structure RAGState where
  conversations : List ℕ
  messages : List MessageRow
  pendingConversations : List ℕ
  pendingMessages : List MessageRow
deriving DecidableEq, Repr

/-- `await self.db.commit()`: all pending rows become committed, atomically. -/
def RAGState.commit (s : RAGState) : RAGState :=
  { conversations := s.conversations ++ s.pendingConversations
    messages := s.messages ++ s.pendingMessages
    pendingConversations := []
    pendingMessages := [] }

/-- `await self.db.rollback()`: pending rows are discarded. -/
def RAGState.rollback (s : RAGState) : RAGState :=
  { conversations := s.conversations
    messages := s.messages
    pendingConversations := []
    pendingMessages := [] }

/-- Fresh id for a newly created conversation row. -/
def freshConversationId (s : RAGState) : ℕ :=
  ((s.conversations ++ s.pendingConversations).foldr max 0) + 1

/-- `RAGService._get_or_create_conversation`.  Python's `if conversation_id:`
is falsy both for `None` and for `0`, so both fall through to creation; a
truthy id is looked up and `ValueError` (modelled `RagError.notFound`) is
raised when no such conversation exists.  The lookup sees committed rows and
session-flushed rows. -/
def _get_or_create_conversation (s : RAGState) (conversation_id : Option ℕ) :
    Except RagError (ℕ × RAGState) :=
  match conversation_id with
  | some cid =>
    if cid = 0 then
      newConversation s
    else if cid ∈ s.conversations ++ s.pendingConversations then
      .ok (cid, s)
    else
      .error (.notFound cid)
  | none => newConversation s
where
  /-- The creation branch: add a `Conversation` row and flush (id assigned,
  row pending, nothing committed). -/
  newConversation (s : RAGState) : Except RagError (ℕ × RAGState) :=
    let cid := freshConversationId s
    .ok (cid, { s with pendingConversations := s.pendingConversations ++ [cid] })

/-- The fixed system prompt of `RAGService._build_prompt`. -/
def systemPrompt : String :=
  "You are a helpful AI assistant with access to a knowledge base.\nUse the provided context to answer questions accurately and concisely.\nIf the context doesn\x27t contain relevant information, say so clearly.\nAlways cite which parts of the context you used in your answer."

/-- `conversation_history[-5:]` mapped to chat messages verbatim; Python
`if conversation_history:` is falsy for `None` and for the empty list, both of
which contribute no messages (as does `[-5:]` of an empty list). -/
def historyTail (conversation_history : Option (List MessageRow)) : List ChatMsg :=
  match conversation_history with
  | none => []
  | some h => (h.drop (h.length - 5)).map (fun m => { role := m.role, content := m.content })

/-- The `context_text` block: numbered `[Source N]` headings joined by the
fixed delimiter. -/
def contextText (context_chunks : List (RetrievedChunk × ℚ)) : String :=
  String.intercalate "\n\n---\n\n"
    (context_chunks.enum.map
      (fun p => "[Source " ++ toString (p.1 + 1) ++ "]\n" ++ p.2.1.chunk_text))

/-- The user message when chunks were retrieved. -/
def contextUserMessage (query : String) (context_chunks : List (RetrievedChunk × ℚ)) : String :=
  "Context from knowledge base:\n\n" ++ contextText context_chunks ++
    "\n\n---\n\nQuestion: " ++ query ++
    "\n\nPlease answer based on the context provided above."

/-- The user message when no chunks were retrieved. -/
def noContextUserMessage (query : String) : String :=
  "Question: " ++ query ++
    "\n\nNote: No relevant context was found in the knowledge base. Please answer based on your general knowledge and mention that this is not from the knowledge base."

/-- `RAGService._build_prompt`. -/
def _build_prompt (query : String) (context_chunks : List (RetrievedChunk × ℚ))
    (conversation_history : Option (List MessageRow)) : List ChatMsg :=
  let messages : List ChatMsg := [{ role := "system", content := systemPrompt }]
  let messages := messages ++ historyTail conversation_history
  let user_message :=
    if context_chunks.isEmpty then noContextUserMessage query
    else contextUserMessage query context_chunks
  messages ++ [{ role := "user", content := user_message }]

/-- A `SourceDocument` entry of the response (scores as exact rationals). -/
structure SourceDocument where
  document_id : ℕ
  chunk_id : ℕ
  content : String
  similarity_score : ℚ
  metadata : List (String × String)
deriving DecidableEq, Repr

/-- `RAGQueryResponse`, with the fixed-key metadata dict flattened. -/
structure RAGQueryResponse where
  conversation_id : ℕ
  message_id : ℕ
  query : String
  response : String
  sources : List SourceDocument
  meta_model : String
  meta_usage : Usage
  retrieved_chunks : ℕ
deriving DecidableEq, Repr

/-- `RAGService.process_query`.  The two awaited external calls are passed in
explicitly: `retrieval` is the outcome of
`vector_service.similarity_search(query, top_k)` and `llm` maps the assembled
prompt to the outcome of `llm_service.generate_chat_completion`.  Row ids are
modelled positionally: the new assistant message's id is its index in the
committed `messages` list.  Any raised error rolls the session back and
propagates (the `except` clause); on success the user and assistant rows are
added to the session and committed by the single `commit` call. -/
def process_query (s : RAGState) (query : String) (conversation_id : Option ℕ)
    (retrieval : Except RagError (List (RetrievedChunk × ℚ)))
    (llm : List ChatMsg → Except RagError LLMResponse)
    (include_sources : Bool) : Except RagError RAGQueryResponse × RAGState :=
  match _get_or_create_conversation s conversation_id with
  | .error e => (.error e, s.rollback)
  | .ok (cid, s1) =>
    match retrieval with
    | .error e => (.error e, s1.rollback)
    | .ok similar_chunks =>
      match llm (_build_prompt query similar_chunks none) with
      | .error e => (.error e, s1.rollback)
      | .ok llm_response =>
        let user_message : MessageRow :=
          { conversation_id := cid, role := "user", content := query }
        let s2 := { s1 with pendingMessages := s1.pendingMessages ++ [user_message] }
        let assistant_message : MessageRow :=
          { conversation_id := cid
            role := "assistant"
            content := llm_response.content
            meta_model := some llm_response.model
            meta_usage := some llm_response.usage
            meta_sources_count := some similar_chunks.length }
        let s3 := { s2 with pendingMessages := s2.pendingMessages ++ [assistant_message] }
        let s4 := s3.commit
        let sources :=
          if include_sources then
            similar_chunks.map (fun p =>
              { document_id := p.1.document_id
                chunk_id := p.1.id
                content := p.1.chunk_text
                similarity_score := p.2
                metadata := p.1.meta_data : SourceDocument })
          else []
        (.ok { conversation_id := cid
               message_id := s1.messages.length + s1.pendingMessages.length + 1
               query := query
               response := llm_response.content
               sources := sources
               meta_model := llm_response.model
               meta_usage := llm_response.usage
               retrieved_chunks := similar_chunks.length }, s4)

/-!
## Document ingestion (`app/services/document_service.py` and
`VectorService.add_document_chunks`)
-/

/-- A row of the `documents` table. -/
structure DocRow where
  id : ℕ
  title : String
  content : String
deriving DecidableEq, Repr

/-- A row of the `document_chunks` table (embedding as exact rationals). -/
structure ChunkRow where
  document_id : ℕ
  chunk_text : String
  chunk_index : ℕ
  embedding : List ℚ
deriving DecidableEq, Repr

/-- Session-visible state for the document/chunk tables. -/
structure DocState where
  documents : List DocRow
  chunks : List ChunkRow
  pendingDocuments : List DocRow
  pendingChunks : List ChunkRow
deriving DecidableEq, Repr

/-- `await self.db.commit()` on the ingest session. -/
def DocState.commit (s : DocState) : DocState :=
  { documents := s.documents ++ s.pendingDocuments
    chunks := s.chunks ++ s.pendingChunks
    pendingDocuments := []
    pendingChunks := [] }

/-- `await self.db.rollback()` on the ingest session. -/
def DocState.rollback (s : DocState) : DocState :=
  { documents := s.documents
    chunks := s.chunks
    pendingDocuments := []
    pendingChunks := [] }

/-- Fresh id assigned to the flushed document row. -/
def freshDocumentId (s : DocState) : ℕ :=
  (((s.documents ++ s.pendingDocuments).map DocRow.id).foldr max 0) + 1

/-- `VectorService.add_document_chunks`.  `embedProvider n` is the outcome of
attempt `n` of the embedding call inside `generate_embeddings`, which retries
up to three times; on success one `DocumentChunk` row per `(chunk, embedding)`
pair is added and the session is committed, on failure the session is rolled
back and the error re-raised. -/
def add_document_chunks (s : DocState) (document_id : ℕ) (chunks : List String)
    (embedProvider : ℕ → Except RagError (List (List ℚ))) :
    Except RagError (List ChunkRow) × DocState :=
  match retryThrice embedProvider with
  | .error e => (.error e, s.rollback)
  | .ok embeddings =>
    let chunk_objects := (chunks.zip embeddings).enum.map
      (fun p => { document_id := document_id
                  chunk_text := p.2.1
                  chunk_index := p.1
                  embedding := p.2.2 : ChunkRow })
    let s1 := { s with pendingChunks := s.pendingChunks ++ chunk_objects }
    (.ok chunk_objects, s1.commit)

/-- `DocumentService.create_document`: add the document row, flush (id
assigned, not committed), chunk the content, delegate to
`add_document_chunks`, then commit; any raised error rolls back and
propagates. -/
def create_document (s : DocState) (title content : String) (cfg : Settings)
    (embedProvider : ℕ → Except RagError (List (List ℚ))) :
    Except RagError DocRow × DocState :=
  let document : DocRow := { id := freshDocumentId s, title := title, content := content }
  let s1 := { s with pendingDocuments := s.pendingDocuments ++ [document] }
  let chunks := (chunk_text content.toList cfg.chunk_size cfg.chunk_overlap).map
    (fun cs => String.mk cs)
  match add_document_chunks s1 document.id chunks embedProvider with
  | (.error e, s2) => (.error e, s2.rollback)
  | (.ok _, s2) => (.ok document, s2.commit)

/-!
## Similarity search (`VectorService.similarity_search`)

The method sends one SQL statement to the store:

```
SELECT ..., 1 - (embedding <=> q) as similarity
FROM document_chunks
WHERE 1 - (embedding <=> q) >= {threshold}
ORDER BY embedding <=> q
LIMIT {top_k}
```

`<=>` is pgvector's cosine-distance operator,
`1 - dot(a,b) / (‖a‖ * ‖b‖)`; vector arithmetic is idealised over `ℝ`.
`similarity_search_sql` is the relational semantics of that statement over a
table given as a list of rows: the `WHERE` filter, then `ORDER BY` ascending
distance (the store's sort taken stable in table order), then `LIMIT`, with the
selected `similarity` column attached to each surviving row.
`similarity_search_method` is the surrounding Python method: the awaited query
embedding (an `Except`, since the embedding provider can fail) and the
`similarity_threshold or settings.rag_similarity_threshold` defaulting, which
is falsy both for `None` and for `0.0`.
-/

/-- A stored `document_chunks` row as seen by the search (embedding over `ℝ`). -/
structure StoredChunk where
  id : ℕ
  document_id : ℕ
  chunk_text : String
  chunk_index : ℕ
  embedding : List ℝ

/-- Dot product of two vectors (componentwise on the common prefix). -/
def dot (a b : List ℝ) : ℝ := (List.zipWith (· * ·) a b).sum

/-- pgvector cosine distance `a <=> b`. -/
noncomputable def cosineDistance (a b : List ℝ) : ℝ :=
  1 - dot a b / (Real.sqrt (dot a a) * Real.sqrt (dot b b))

/-- The `similarity` column selected by the query: `1 - (embedding <=> q)`. -/
noncomputable def similarityScore (q e : List ℝ) : ℝ := 1 - cosineDistance q e

/-- Relational semantics of the SQL statement issued by `similarity_search`. -/
noncomputable def similarity_search_sql (q : List ℝ) (corpus : List StoredChunk)
    (top_k : ℕ) (threshold : ℝ) : List (StoredChunk × ℝ) :=
  ((((corpus.filter
        (fun c => decide (threshold ≤ similarityScore q c.embedding))).mergeSort
      (fun a b =>
        decide (cosineDistance q a.embedding ≤ cosineDistance q b.embedding))).map
    (fun c => (c, similarityScore q c.embedding))).take top_k)

/-- `VectorService.similarity_search` as a whole: `queryEmbed` is the awaited
outcome of `generate_embeddings([query])[0]`; errors propagate, otherwise the
store query runs with the (Python-falsy) defaulted threshold. -/
noncomputable def similarity_search_method (queryEmbed : Except RagError (List ℝ))
    (corpus : List StoredChunk) (top_k : ℕ) (similarity_threshold : Option ℝ)
    (cfg : Settings) : Except RagError (List (StoredChunk × ℝ)) :=
  match queryEmbed with
  | .error e => .error e
  | .ok qe =>
    .ok (similarity_search_sql qe corpus top_k
      (pyOrReal similarity_threshold cfg.rag_similarity_threshold))

/-!
## Theorems
-/

/-- A dot product of a vector with itself is a sum of squares. -/
theorem dot_self_nonneg (a : List ℝ) : 0 ≤ dot a a := by
  induction a with
  | nil => simp [dot]
  | cons x xs ih =>
    simp only [dot, List.zipWith_cons_cons, List.sum_cons] at ih ⊢
    have := mul_self_nonneg x
    linarith

/-- The list dot product as a `Finset.range` sum over the common prefix. -/
theorem dot_eq_sum (a : List ℝ) : ∀ b : List ℝ,
    dot a b = ∑ i ∈ Finset.range (min a.length b.length),
      a.getD i 0 * b.getD i 0 := by
  induction a with
  | nil => intro b; simp [dot]
  | cons x xs ih =>
    intro b
    cases b with
    | nil => simp [dot]
    | cons y ys =>
      have ihe := ih ys
      simp only [dot] at ihe ⊢
      simp only [List.zipWith_cons_cons, List.sum_cons, List.length_cons]
      rw [show min (xs.length + 1) (ys.length + 1) = min xs.length ys.length + 1 by
        omega]
      rw [Finset.sum_range_succ']
      simp only [List.getD_cons_succ, List.getD_cons_zero]
      rw [← ihe]
      ring

/-- Cauchy–Schwarz for the list dot product. -/
theorem dot_le_sqrt_mul_sqrt (a b : List ℝ) :
    dot a b ≤ Real.sqrt (dot a a) * Real.sqrt (dot b b) := by
  have hsq : (dot a b) ^ 2 ≤ dot a a * dot b b := by
    have hcs := Finset.sum_mul_sq_le_sq_mul_sq (Finset.range (min a.length b.length))
      (fun i => a.getD i 0) (fun i => b.getD i 0)
    have ha : ∑ i ∈ Finset.range (min a.length b.length), (a.getD i 0) ^ 2 ≤
        dot a a := by
      rw [dot_eq_sum a a, min_self]
      calc ∑ i ∈ Finset.range (min a.length b.length), (a.getD i 0) ^ 2 ≤
            ∑ i ∈ Finset.range a.length, (a.getD i 0) ^ 2 :=
          Finset.sum_le_sum_of_subset_of_nonneg
            (Finset.range_subset.mpr (min_le_left _ _)) (fun i _ _ => sq_nonneg _)
        _ = ∑ i ∈ Finset.range a.length, a.getD i 0 * a.getD i 0 :=
          Finset.sum_congr rfl (fun i _ => sq (a.getD i 0) ▸ by ring)
    have hb : ∑ i ∈ Finset.range (min a.length b.length), (b.getD i 0) ^ 2 ≤
        dot b b := by
      rw [dot_eq_sum b b, min_self]
      calc ∑ i ∈ Finset.range (min a.length b.length), (b.getD i 0) ^ 2 ≤
            ∑ i ∈ Finset.range b.length, (b.getD i 0) ^ 2 :=
          Finset.sum_le_sum_of_subset_of_nonneg
            (Finset.range_subset.mpr (min_le_right _ _)) (fun i _ _ => sq_nonneg _)
        _ = ∑ i ∈ Finset.range b.length, b.getD i 0 * b.getD i 0 :=
          Finset.sum_congr rfl (fun i _ => by ring)
    rw [dot_eq_sum a b]
    calc (∑ i ∈ Finset.range (min a.length b.length), a.getD i 0 * b.getD i 0) ^ 2 ≤
          (∑ i ∈ Finset.range (min a.length b.length), (a.getD i 0) ^ 2) *
            (∑ i ∈ Finset.range (min a.length b.length), (b.getD i 0) ^ 2) := hcs
      _ ≤ dot a a * dot b b :=
        mul_le_mul ha hb (Finset.sum_nonneg (fun i _ => sq_nonneg _))
          (dot_self_nonneg a)
  calc dot a b ≤ Real.sqrt ((dot a b) ^ 2) := by
        rw [Real.sqrt_sq_eq_abs]
        exact le_abs_self _
    _ ≤ Real.sqrt (dot a a * dot b b) := Real.sqrt_le_sqrt hsq
    _ = Real.sqrt (dot a a) * Real.sqrt (dot b b) :=
        Real.sqrt_mul (dot_self_nonneg a) _

/-- No similarity score can exceed `1`: pgvector's cosine distance is
nonnegative (Cauchy–Schwarz), so the selected `1 - distance` column is at
most `1`. -/
theorem similarityScore_le_one (q e : List ℝ) : similarityScore q e ≤ 1 := by
  unfold similarityScore cosineDistance
  have hD : 0 ≤ Real.sqrt (dot q q) * Real.sqrt (dot e e) :=
    mul_nonneg (Real.sqrt_nonneg _) (Real.sqrt_nonneg _)
  have hle := dot_le_sqrt_mul_sqrt q e
  rcases eq_or_lt_of_le hD with hD0 | hDpos
  · rw [← hD0]
    simp
  · have : dot q e / (Real.sqrt (dot q q) * Real.sqrt (dot e e)) ≤ 1 :=
      (div_le_one hDpos).mpr hle
    linarith

/-- C2: the similarity search returns only rows whose score
`1 - cosine_distance` is at least the threshold, returns at most `top_k`
rows, orders them by descending similarity score, and returns the empty
sequence (a normal, non-error outcome of the plain-list return type)
whenever the threshold is `1.1`, since no score can exceed `1`. -/
theorem similarity_search_spec (q : List ℝ) (corpus : List StoredChunk)
    (top_k : ℕ) (threshold : ℝ) :
    (∀ p ∈ similarity_search_sql q corpus top_k threshold, threshold ≤ p.2) ∧
    (similarity_search_sql q corpus top_k threshold).length ≤ top_k ∧
    List.Pairwise (fun p r => r.2 ≤ p.2)
      (similarity_search_sql q corpus top_k threshold) ∧
    (threshold = 1.1 → similarity_search_sql q corpus top_k threshold = []) := by
  refine ⟨?_, ?_, ?_, ?_⟩
  · intro p hp
    have hp1 := List.mem_of_mem_take hp
    obtain ⟨c, hc, hfc⟩ := List.mem_map.mp hp1
    have hc2 := List.mem_mergeSort.mp hc
    have hpred := (List.mem_filter.mp hc2).2
    have hth : threshold ≤ similarityScore q c.embedding := of_decide_eq_true hpred
    rw [← hfc]
    exact hth
  · rw [similarity_search_sql, List.length_take]
    exact min_le_left _ _
  · have htrans : ∀ a b c : StoredChunk,
        (decide (cosineDistance q a.embedding ≤ cosineDistance q b.embedding)) →
        (decide (cosineDistance q b.embedding ≤ cosineDistance q c.embedding)) →
        (decide (cosineDistance q a.embedding ≤ cosineDistance q c.embedding)) := by
      intro a b c hab hbc
      simp only [decide_eq_true_eq] at hab hbc ⊢
      exact le_trans hab hbc
    have htotal : ∀ a b : StoredChunk,
        (decide (cosineDistance q a.embedding ≤ cosineDistance q b.embedding)) ||
        (decide (cosineDistance q b.embedding ≤ cosineDistance q a.embedding)) := by
      intro a b
      simp only [Bool.or_eq_true, decide_eq_true_eq]
      exact le_total _ _
    have hsorted := List.sorted_mergeSort htrans htotal
      (corpus.filter (fun c => decide (threshold ≤ similarityScore q c.embedding)))
    have hscores : List.Pairwise
        (fun a b : StoredChunk =>
          similarityScore q b.embedding ≤ similarityScore q a.embedding)
        ((corpus.filter
            (fun c => decide (threshold ≤ similarityScore q c.embedding))).mergeSort
          (fun a b =>
            decide (cosineDistance q a.embedding ≤ cosineDistance q b.embedding))) := by
      refine hsorted.imp ?_
      intro a b hab
      have : cosineDistance q a.embedding ≤ cosineDistance q b.embedding := by
        simpa using hab
      unfold similarityScore
      linarith
    have hmap : List.Pairwise (fun p r : StoredChunk × ℝ => r.2 ≤ p.2)
        (((corpus.filter
            (fun c => decide (threshold ≤ similarityScore q c.embedding))).mergeSort
          (fun a b =>
            decide (cosineDistance q a.embedding ≤ cosineDistance q b.embedding))).map
          (fun c => (c, similarityScore q c.embedding))) :=
      List.pairwise_map.mpr hscores
    exact hmap.sublist (List.take_sublist _ _)
  · intro ht
    subst ht
    have hfilter : corpus.filter
        (fun c => decide ((1.1 : ℝ) ≤ similarityScore q c.embedding)) = [] := by
      refine List.filter_eq_nil_iff.mpr ?_
      intro c _
      simp only [decide_eq_true_eq]
      push_neg
      calc similarityScore q c.embedding ≤ 1 := similarityScore_le_one q c.embedding
        _ < 1.1 := by norm_num
    rw [similarity_search_sql, hfilter]
    simp

/-- Witness for C2: the `threshold = 1.1` and `top_k` bound facts at concrete
inputs. -/
theorem similarity_search_spec_witness :
    similarity_search_sql [] [] 0 1.1 = [] ∧
    (similarity_search_sql [] [] 5 0.3).length ≤ 5 :=
  ⟨(similarity_search_spec [] [] 0 1.1).2.2.2 rfl,
   (similarity_search_spec [] [] 5 0.3).2.1⟩

/-- C6: the completion gateway branches on the model-family prefix: a model
identifier starting with `gpt-5` gets the token cap under
`max_completion_tokens` and no temperature parameter; every other model gets
the cap under `max_tokens` together with an explicit temperature. -/
theorem completion_params_model_family (cfg : Settings) (messages : List ChatMsg)
    (temperature : Option ℚ) (max_tokens : Option ℕ) :
    (startswith cfg.openai_model "gpt-5" = true →
      completionParams cfg messages temperature max_tokens =
        { model := cfg.openai_model
          messages := messages
          max_tokens := none
          max_completion_tokens := some (pyOrNat max_tokens cfg.llm_max_tokens)
          temperature := none }) ∧
    (startswith cfg.openai_model "gpt-5" = false →
      completionParams cfg messages temperature max_tokens =
        { model := cfg.openai_model
          messages := messages
          max_tokens := some (pyOrNat max_tokens cfg.llm_max_tokens)
          max_completion_tokens := none
          temperature := some (pyOrRat temperature cfg.llm_temperature) }) := by
  constructor <;> intro h <;> simp [completionParams, h]

/-- Witness for C6: both branches at concrete configurations. -/
theorem completion_params_model_family_witness :
    completionParams ⟨"gpt-5-nano", 0, 2048, 5, 0, 1000, 200⟩ [] none none =
      { model := "gpt-5-nano", messages := []
        max_completion_tokens := some 2048 } ∧
    completionParams ⟨"gpt-4o", 0, 2048, 5, 0, 1000, 200⟩ [] (some 7) (some 50) =
      { model := "gpt-4o", messages := []
        max_tokens := some 50, temperature := some 7 } := by
  constructor
  · have h := (completion_params_model_family ⟨"gpt-5-nano", 0, 2048, 5, 0, 1000, 200⟩
      [] none none).1 (by decide)
    simpa [pyOrNat] using h
  · have h := (completion_params_model_family ⟨"gpt-4o", 0, 2048, 5, 0, 1000, 200⟩
      [] (some 7) (some 50)).2 (by decide)
    simpa [pyOrNat, pyOrRat] using h

/-- C10: passing an explicit `similarity_threshold` of `0.0` — a valid value
under the spec's range — is indistinguishable from passing no threshold at
all, because the code tests Python truthiness (`similarity_threshold or
settings.rag_similarity_threshold`) and `0.0` is falsy; the configured default
(`rag_similarity_threshold`, default `0.4`) is used instead. -/
theorem zero_threshold_uses_default (queryEmbed : Except RagError (List ℝ))
    (corpus : List StoredChunk) (top_k : ℕ) (cfg : Settings) :
    similarity_search_method queryEmbed corpus top_k (some 0) cfg =
      similarity_search_method queryEmbed corpus top_k none cfg ∧
    pyOrReal (some 0) cfg.rag_similarity_threshold = cfg.rag_similarity_threshold ∧
    defaultSettings.rag_similarity_threshold = 0.4 := by
  refine ⟨?_, by simp [pyOrReal], rfl⟩
  cases queryEmbed <;> simp [similarity_search_method, pyOrReal]

/-- C7 counterexample: `similarity_search` performs no validation at all.  At
`top_k = 0` (violating `topK >= 1`) and threshold `5` (violating
`0 <= threshold <= 1`) the method still issues the store query and returns a
normal (`ok`) empty result instead of rejecting with a `ConfigError`. -/
theorem similarity_search_no_validation_cex :
    similarity_search_method (.ok []) [] 0 (some 5) defaultSettings = .ok [] := by
  simp [similarity_search_method, similarity_search_sql]

/-- C7 amended: `similarity_search` does not validate `top_k` or the
threshold; whatever values are supplied (including `top_k < 1` and thresholds
outside `[0, 1]`) are passed into the store query, which runs and returns a
normal result — `top_k = 0` simply yields the empty list. -/
theorem similarity_search_no_validation (qe : List ℝ) (corpus : List StoredChunk)
    (top_k : ℕ) (t : ℝ) (cfg : Settings) :
    (∃ l, similarity_search_method (.ok qe) corpus top_k (some t) cfg = .ok l) ∧
    (top_k = 0 → similarity_search_method (.ok qe) corpus top_k (some t) cfg = .ok []) := by
  refine ⟨⟨_, rfl⟩, fun h => ?_⟩
  subst h
  simp [similarity_search_method, similarity_search_sql]

/-- Witness for C7's amended theorem at a concrete invalid threshold. -/
theorem similarity_search_no_validation_witness :
    similarity_search_method (.ok []) [] 0 (some (-3)) defaultSettings = .ok [] :=
  (similarity_search_no_validation [] [] 0 (-3) defaultSettings).2 rfl

/-- C9 counterexample: `_build_prompt` does not emit exactly one system
message for every history — a history containing a stored `system`-role
message (a role the data model allows) is copied verbatim, producing a second
system message. -/
theorem build_prompt_system_message_cex :
    ¬ (((_build_prompt "q" []
          (some [{ conversation_id := 1, role := "system", content := "x" }])).filter
        (fun m => m.role == "system")).length = 1) := by decide

/-- C9 amended: the head of `_build_prompt`'s output is always the fixed
system message, and it is the only system message provided the (at most five)
history messages carried over contain none of role `system`; with no retrieved
chunks the final message is a user message consisting of the query plus the
explicit no-context instruction.  (As a Lean function the builder is
deterministic and pure by construction.) -/
theorem build_prompt_amended (query : String)
    (context_chunks : List (RetrievedChunk × ℚ))
    (conversation_history : Option (List MessageRow)) :
    (_build_prompt query context_chunks conversation_history).head? =
      some { role := "system", content := systemPrompt } ∧
    ((∀ m ∈ historyTail conversation_history, m.role ≠ "system") →
      ((_build_prompt query context_chunks conversation_history).filter
        (fun m => m.role == "system")).length = 1) ∧
    (context_chunks = [] →
      (_build_prompt query context_chunks conversation_history).getLast? =
        some { role := "user", content := noContextUserMessage query }) := by
  refine ⟨?_, fun hh => ?_, fun hc => ?_⟩
  · simp [_build_prompt]
  · have hfilter : (historyTail conversation_history).filter
        (fun m => m.role == "system") = [] := by
      refine List.filter_eq_nil_iff.mpr ?_
      intro m hm
      simpa using hh m hm
    simp [_build_prompt, List.filter_append, hfilter]
  · subst hc
    have hshape : _build_prompt query [] conversation_history =
        ([({ role := "system", content := systemPrompt } : ChatMsg)] ++
            historyTail conversation_history) ++
          [({ role := "user", content := noContextUserMessage query } : ChatMsg)] := rfl
    rw [hshape, List.getLast?_concat]

/-- The loop exits (producing nothing) as soon as `start >= len(text)`. -/
theorem chunkGo_exit (text : List Char) (size overlap fuel start : ℕ)
    (h : text.length ≤ start) : chunkGo text size overlap start fuel = [] := by
  cases fuel with
  | zero => rfl
  | succ n => simp [chunkGo, Nat.not_lt.mpr h]

/-- Every emitted window `(s, c)` satisfies: `c` is the slice
`text[s : s+size]`, its start lies inside the text and at or after the loop's
starting point, and the Python emission guard held for it. -/
theorem chunkGo_mem_shape (text : List Char) (size overlap : ℕ) (fuel : ℕ) :
    ∀ start, ∀ p ∈ chunkGo text size overlap start fuel,
      p.2 = (text.drop p.1).take size ∧ p.1 < text.length ∧ start ≤ p.1 ∧
      (overlap < p.2.length ∨ p.1 = 0) := by
  induction fuel with
  | zero => intro start p hp; simp [chunkGo] at hp
  | succ n ih =>
    intro start p hp
    simp only [chunkGo] at hp
    by_cases hs : start < text.length
    · rw [if_pos hs] at hp
      by_cases hg : overlap < ((text.drop start).take size).length ∨ start = 0
      · rw [if_pos hg] at hp
        rcases List.mem_cons.mp hp with hhead | hp'
        · subst hhead
          exact ⟨rfl, hs, le_refl _, hg⟩
        · obtain ⟨h1, h2, h3, h4⟩ := ih _ p hp'
          exact ⟨h1, h2, le_trans (Nat.le_add_right _ _) h3, h4⟩
      · rw [if_neg hg] at hp
        obtain ⟨h1, h2, h3, h4⟩ := ih _ p hp
        exact ⟨h1, h2, le_trans (Nat.le_add_right _ _) h3, h4⟩
    · rw [if_neg hs] at hp
      simp at hp

/-- Once the remaining text is at most `overlap` long (and the window is not
the first), the guard fails for this window and every later one: nothing more
is emitted. -/
theorem chunkGo_drop_tail (text : List Char) (size overlap : ℕ)
    (hov : overlap < size) (fuel : ℕ) :
    ∀ start, 1 ≤ start → text.length ≤ start + overlap →
      chunkGo text size overlap start fuel = [] := by
  induction fuel with
  | zero => intro start _ _; rfl
  | succ n ih =>
    intro start h1 h2
    by_cases hs : start < text.length
    · have hlen : ((text.drop start).take size).length ≤ overlap := by
        rw [List.length_take, List.length_drop]
        exact le_trans (min_le_right _ _) (by omega)
      have hguard : ¬(overlap < ((text.drop start).take size).length ∨ start = 0) := by
        push_neg
        exact ⟨hlen, by omega⟩
      simp only [chunkGo, if_pos hs, if_neg hguard]
      exact ih (start + (size - overlap)) (by omega) (by omega)
    · exact chunkGo_exit _ _ _ _ _ (Nat.not_lt.mp hs)

/-- A nonempty result starts with the window at `start` itself, whose guard
held, followed by the rest of the loop. -/
theorem chunkGo_ne_nil_eq (text : List Char) (size overlap : ℕ)
    (hov : overlap < size) (fuel : ℕ) :
    ∀ start, chunkGo text size overlap start fuel ≠ [] →
      chunkGo text size overlap start fuel =
        (start, (text.drop start).take size) ::
          chunkGo text size overlap (start + (size - overlap)) (fuel - 1) ∧
      start < text.length ∧
      (overlap < ((text.drop start).take size).length ∨ start = 0) := by
  intro start hne
  cases fuel with
  | zero => exact absurd rfl hne
  | succ n =>
    by_cases hs : start < text.length
    · by_cases hg : overlap < ((text.drop start).take size).length ∨ start = 0
      · refine ⟨?_, hs, hg⟩
        simp only [chunkGo, if_pos hs, if_pos hg, Nat.add_sub_cancel]
      · exfalso
        apply hne
        have hmin : min size (text.length - start) ≤ overlap := by
          have := hg
          push_neg at this
          have h1 := this.1
          rw [List.length_take, List.length_drop] at h1
          omega
        have hrem : text.length ≤ start + overlap := by
          rcases le_or_lt size (text.length - start) with hle | hlt
          · rw [min_eq_left hle] at hmin; omega
          · rw [min_eq_right (le_of_lt hlt)] at hmin; omega
        have hstart1 : 1 ≤ start := by
          rcases Nat.eq_zero_or_pos start with h0 | h0
          · exact absurd (Or.inr h0) hg
          · exact h0
        simp only [chunkGo, if_pos hs, if_neg hg]
        exact chunkGo_drop_tail text size overlap hov n _ (by omega) (by omega)
    · exact absurd (chunkGo_exit _ _ _ _ _ (Nat.not_lt.mp hs)) hne

/-- Consecutive emitted windows advance by exactly `size - overlap`, and a
window with a successor is a full (untruncated) window: `start + size` is
still strictly inside the text. -/
theorem chunkGo_chain (text : List Char) (size overlap : ℕ)
    (hov : overlap < size) (fuel : ℕ) :
    ∀ start, List.Chain'
      (fun p q => q.1 = p.1 + (size - overlap) ∧ p.1 + size < text.length)
      (chunkGo text size overlap start fuel) := by
  induction fuel with
  | zero => intro start; simp [chunkGo]
  | succ n ih =>
    intro start
    by_cases hs : start < text.length
    · by_cases hg : overlap < ((text.drop start).take size).length ∨ start = 0
      · simp only [chunkGo, if_pos hs, if_pos hg]
        refine List.chain'_cons'.mpr ⟨?_, ih _⟩
        intro q hq
        have hne : chunkGo text size overlap (start + (size - overlap)) n ≠ [] := by
          intro hnil
          rw [hnil] at hq
          simp at hq
        obtain ⟨heq, hlt, hg'⟩ := chunkGo_ne_nil_eq text size overlap hov n _ hne
        rw [heq] at hq
        simp only [List.head?_cons, Option.mem_def, Option.some.injEq] at hq
        subst hq
        refine ⟨rfl, ?_⟩
        have hne0 : ¬(start + (size - overlap) = 0) := by omega
        rcases hg' with hlen | h0
        · rw [List.length_take, List.length_drop] at hlen
          omega
        · exact absurd h0 hne0
      · simp only [chunkGo, if_pos hs, if_neg hg]
        exact ih _
    · rw [chunkGo_exit _ _ _ _ _ (Nat.not_lt.mp hs)]
      simp

/-- Coverage: starting from a window whose guard will hold, every text
position from `start` on lies inside some emitted window. -/
theorem chunkGo_cover (text : List Char) (size overlap : ℕ)
    (hsize : 0 < size) (hov : overlap < size) (fuel : ℕ) :
    ∀ start, text.length ≤ start + fuel →
      (overlap < text.length - start ∨ start = 0) →
      ∀ i, start ≤ i → i < text.length →
        ∃ p ∈ chunkGo text size overlap start fuel,
          p.1 ≤ i ∧ i < p.1 + p.2.length := by
  induction fuel with
  | zero => intro start hf _ i hi1 hi2; omega
  | succ n ih =>
    intro start hf hcond i hi1 hi2
    have hs : start < text.length := lt_of_le_of_lt hi1 hi2
    have hchunklen : ((text.drop start).take size).length =
        min size (text.length - start) := by
      rw [List.length_take, List.length_drop]
    have hguard : overlap < ((text.drop start).take size).length ∨ start = 0 := by
      rcases hcond with h | h
      · left
        rw [hchunklen]
        exact lt_min hov h
      · right; exact h
    by_cases hin : i < start + ((text.drop start).take size).length
    · refine ⟨(start, (text.drop start).take size), ?_, hi1, hin⟩
      simp only [chunkGo, if_pos hs, if_pos hguard]
      exact List.mem_cons_self _ _
    · push_neg at hin
      rw [hchunklen] at hin
      rcases le_or_lt size (text.length - start) with hfull | hshort
      · rw [min_eq_left hfull] at hin
        obtain ⟨p, hp, hpi⟩ := ih (start + (size - overlap)) (by omega)
          (by left; omega) i (by omega) hi2
        refine ⟨p, ?_, hpi⟩
        simp only [chunkGo, if_pos hs, if_pos hguard]
        exact List.mem_cons_of_mem _ hp
      · rw [min_eq_right (le_of_lt hshort)] at hin
        omega

/-- The loop's result does not depend on the fuel once the fuel covers the
remaining length; together with `chunkGo_exit` this is the termination of the
Python `while` loop for `overlap < size`. -/
theorem chunkGo_fuel_indep (text : List Char) (size overlap : ℕ)
    (hov : overlap < size) :
    ∀ fuel fuel' start, text.length ≤ start + fuel → text.length ≤ start + fuel' →
      chunkGo text size overlap start fuel = chunkGo text size overlap start fuel' := by
  intro fuel
  induction fuel with
  | zero =>
    intro fuel' start h h'
    rw [chunkGo_exit text size overlap fuel' start (by omega)]
    rfl
  | succ n ih =>
    intro fuel' start h h'
    by_cases hs : start < text.length
    · cases fuel' with
      | zero => omega
      | succ m =>
        simp only [chunkGo, if_pos hs]
        rw [ih m (start + (size - overlap)) (by omega) (by omega)]
    · rw [chunkGo_exit _ _ _ _ _ (Nat.not_lt.mp hs),
        chunkGo_exit _ _ _ _ _ (Nat.not_lt.mp hs)]

/-- C4: for `size > 0` and `0 ≤ overlap < size`, the chunker's windows cover
every character position of the text; consecutive chunks share exactly
`overlap` characters (the `overlap`-suffix of each non-final chunk — which is
a full `size`-length window — equals the `overlap`-prefix of its successor,
and each non-first chunk is longer than `overlap`, so the shared block has
length exactly `overlap`); the result is a Lean function of
`(text, size, overlap)` and hence deterministic; chunking `"abc"` with size
`10` and overlap `0` yields exactly `["abc"]`; and empty text yields the
empty sequence. -/
theorem chunk_text_spec (text : List Char) (size overlap : ℕ)
    (hsize : 0 < size) (hov : overlap < size) :
    chunk_text text size overlap =
      (chunkGo text size overlap 0 text.length).map Prod.snd ∧
    (∀ i, i < text.length →
      ∃ p ∈ chunkGo text size overlap 0 text.length,
        p.1 ≤ i ∧ i < p.1 + p.2.length) ∧
    (∀ k (hk : k + 1 < (chunk_text text size overlap).length),
      ((chunk_text text size overlap).get ⟨k, Nat.lt_of_succ_lt hk⟩).drop (size - overlap) =
        ((chunk_text text size overlap).get ⟨k + 1, hk⟩).take overlap ∧
      ((chunk_text text size overlap).get ⟨k, Nat.lt_of_succ_lt hk⟩).length = size ∧
      overlap < ((chunk_text text size overlap).get ⟨k + 1, hk⟩).length) ∧
    chunk_text [] size overlap = [] ∧
    chunk_text ['a','b','c'] 10 0 = [['a','b','c']] := by
  refine ⟨rfl, ?_, ?_, rfl, by decide⟩
  · intro i hi
    exact chunkGo_cover text size overlap hsize hov text.length 0 (by omega)
      (Or.inr rfl) i (Nat.zero_le _) hi
  · intro k hk
    have hw : (chunk_text text size overlap).length =
        (chunkGo text size overlap 0 text.length).length := by
      simp [chunk_text]
    have hk1 : k + 1 < (chunkGo text size overlap 0 text.length).length := by
      rw [← hw]; exact hk
    have hk0 : k < (chunkGo text size overlap 0 text.length).length :=
      Nat.lt_of_succ_lt hk1
    set w := chunkGo text size overlap 0 text.length with hwdef
    have hchain : List.Chain'
        (fun p q => q.1 = p.1 + (size - overlap) ∧ p.1 + size < text.length) w :=
      chunkGo_chain text size overlap hov text.length 0
    have hadj := (List.chain'_iff_get.mp hchain) k (by omega)
    obtain ⟨hstep, hfull⟩ := hadj
    obtain ⟨hsh1, hlt1, -, -⟩ :=
      chunkGo_mem_shape text size overlap text.length 0 _ (List.get_mem w k hk0)
    obtain ⟨hsh2, hlt2, -, hg2⟩ :=
      chunkGo_mem_shape text size overlap text.length 0 _ (List.get_mem w (k+1) hk1)
    set s := (w.get ⟨k, hk0⟩).1 with hsdef
    have hget1 : (chunk_text text size overlap).get ⟨k, Nat.lt_of_succ_lt hk⟩ =
        (w.get ⟨k, hk0⟩).2 := by
      simp [chunk_text, ← hwdef, List.get_map]
    have hget2 : (chunk_text text size overlap).get ⟨k + 1, hk⟩ =
        (w.get ⟨k + 1, hk1⟩).2 := by
      simp [chunk_text, ← hwdef, List.get_map]
    have hq1 : (w.get ⟨k + 1, hk1⟩).1 = s + (size - overlap) := hstep
    have hglen : overlap < ((w.get ⟨k + 1, hk1⟩).2).length := by
      rcases hg2 with h | h
      · exact h
      · rw [hq1] at h; omega
    refine ⟨?_, ?_, ?_⟩
    · rw [hget1, hget2, hsh1, hsh2, hq1]
      rw [List.drop_take, List.drop_drop, Nat.sub_sub_self (le_of_lt hov),
        List.take_take, min_eq_left (le_of_lt hov)]
    · rw [hget1, hsh1, List.length_take, List.length_drop]
      have : s + size < text.length := hfull
      omega
    · rw [hget2]
      exact hglen

/-- Witness for C4: the `"abc"` edge case and a concrete coverage instance. -/
theorem chunk_text_spec_witness :
    chunk_text ['a','b','c'] 10 0 = [['a','b','c']] ∧
    (∃ p ∈ chunkGo ['a','b','c','d'] 3 1 0 4, p.1 ≤ 3 ∧ 3 < p.1 + p.2.length) :=
  ⟨(chunk_text_spec ['a','b','c'] 10 0 (by decide) (by decide)).2.2.2.2,
   (chunk_text_spec ['a','b','c','d'] 3 1 (by decide) (by decide)).2.1 3 (by decide)⟩

/-- C5: under the preconditions `size > 0` and `0 ≤ overlap < size` the
sliding-window loop terminates: the loop variable strictly increases by
`size - overlap` each iteration, the loop body produces nothing once
`start >= len(text)`, and the loop's outcome is independent of any
sufficiently large fuel bound — so the chunker is a well-defined total
function on that domain (and `text.length` iterations always suffice, since
`text.length ≤ text.length * (size - overlap)`). -/
theorem chunk_loop_terminates (text : List Char) (size overlap : ℕ)
    (hsize : 0 < size) (hov : overlap < size) :
    (∀ start : ℕ, start < start + (size - overlap)) ∧
    (∀ fuel start, text.length ≤ start → chunkGo text size overlap start fuel = []) ∧
    (∀ fuel fuel' start, text.length ≤ start + fuel → text.length ≤ start + fuel' →
      chunkGo text size overlap start fuel = chunkGo text size overlap start fuel') ∧
    text.length ≤ text.length * (size - overlap) := by
  refine ⟨fun start => by omega,
    fun fuel start h => chunkGo_exit text size overlap fuel start h,
    fun fuel fuel' start h h' =>
      chunkGo_fuel_indep text size overlap hov fuel fuel' start h h', ?_⟩
  have h1 : 1 ≤ size - overlap := by omega
  calc text.length = text.length * 1 := by omega
    _ ≤ text.length * (size - overlap) := Nat.mul_le_mul_left _ h1

/-- Witness for C5: the exit and fuel-independence facts at concrete data. -/
theorem chunk_loop_terminates_witness :
    chunkGo ['a','b'] 3 1 7 5 = [] ∧
    chunkGo ['a','b','c','d','e'] 3 1 0 5 = chunkGo ['a','b','c','d','e'] 3 1 0 9 :=
  ⟨(chunk_loop_terminates ['a','b'] 3 1 (by decide) (by decide)).2.1 5 7 (by decide),
   (chunk_loop_terminates ['a','b','c','d','e'] 3 1 (by decide) (by decide)).2.2.1
     5 9 0 (by decide) (by decide)⟩

/-- `_get_or_create_conversation` never touches the message tables: a
successful resolution leaves `messages` and `pendingMessages` (and the
committed conversations) unchanged. -/
theorem get_or_create_ok_state (s : RAGState) (conversation_id : Option ℕ)
    (cid : ℕ) (s1 : RAGState)
    (h : _get_or_create_conversation s conversation_id = .ok (cid, s1)) :
    s1.messages = s.messages ∧ s1.pendingMessages = s.pendingMessages ∧
    s1.conversations = s.conversations := by
  have hnew : ∀ c s',
      _get_or_create_conversation.newConversation s = Except.ok (c, s') →
      s'.messages = s.messages ∧ s'.pendingMessages = s.pendingMessages ∧
      s'.conversations = s.conversations := by
    intro c s' hc
    simp only [_get_or_create_conversation.newConversation, Except.ok.injEq,
      Prod.mk.injEq] at hc
    rw [← hc.2]
    exact ⟨rfl, rfl, rfl⟩
  cases conversation_id with
  | none => exact hnew cid s1 h
  | some c =>
    simp only [_get_or_create_conversation] at h
    by_cases hc : c = 0
    · rw [if_pos hc] at h
      exact hnew cid s1 h
    · rw [if_neg hc] at h
      by_cases hm : c ∈ s.conversations ++ s.pendingConversations
      · rw [if_pos hm] at h
        simp only [Except.ok.injEq, Prod.mk.injEq] at h
        rw [← h.2]
        exact ⟨rfl, rfl, rfl⟩
      · rw [if_neg hm] at h
        cases h

/-- C8 counterexample: `conversation_id = 0` never identifies an existing
conversation (ids are assigned from `1`), yet the query does not fail with
`NotFound`: Python's `if conversation_id:` is falsy for `0`, so the code
silently creates a new conversation and commits the user/assistant message
pair to it, returning normally. -/
theorem process_query_not_found_cex :
    (0 : ℕ) ∉ ([1] : List ℕ) ∧
    (process_query ⟨[1], [], [], []⟩ "q" (some 0) (.ok [])
        (fun _ => .ok ⟨"ans", "gpt-5-nano", ⟨1, 2, 3⟩, "stop"⟩) true).1 =
      .ok ⟨2, 1, "q", "ans", [], "gpt-5-nano", ⟨1, 2, 3⟩, 0⟩ ∧
    ((process_query ⟨[1], [], [], []⟩ "q" (some 0) (.ok [])
        (fun _ => .ok ⟨"ans", "gpt-5-nano", ⟨1, 2, 3⟩, "stop"⟩) true).2).messages =
      [⟨2, "user", "q", none, none, none⟩,
       ⟨2, "assistant", "ans", some "gpt-5-nano", some ⟨1, 2, 3⟩, some 0⟩] :=
  ⟨by decide, rfl, rfl⟩

/-- C8 amended: a query carrying a nonzero `conversation_id` that identifies
no existing conversation fails with the structured `NotFound` error (a caught
and re-raised `ValueError`, not a crash), the session is rolled back, and no
message is committed to any conversation; a `conversation_id` of `0` —
likewise identifying no conversation — is Python-falsy, so the query behaves
exactly as if no conversation id had been supplied (a fresh conversation is
created and the round-trip commits into it). -/
theorem process_query_not_found (s : RAGState) (query : String) (cid : ℕ)
    (retrieval : Except RagError (List (RetrievedChunk × ℚ)))
    (llm : List ChatMsg → Except RagError LLMResponse) (include_sources : Bool)
    (habsent : cid ∉ s.conversations ++ s.pendingConversations) :
    (cid ≠ 0 →
      process_query s query (some cid) retrieval llm include_sources =
        (.error (.notFound cid), s.rollback) ∧
      (s.rollback).messages = s.messages ∧
      (s.rollback).conversations = s.conversations) ∧
    (cid = 0 →
      process_query s query (some cid) retrieval llm include_sources =
        process_query s query none retrieval llm include_sources) := by
  constructor
  · intro hcid
    refine ⟨?_, rfl, rfl⟩
    simp [process_query, _get_or_create_conversation, hcid, habsent]
  · intro hcid
    subst hcid
    have hsame : _get_or_create_conversation s (some 0) =
        _get_or_create_conversation s none := by
      simp [_get_or_create_conversation]
    unfold process_query
    rw [hsame]

/-- Witness for C8's amended theorem: both the nonzero-id failure and the
zero-id fallthrough at a concrete database state. -/
theorem process_query_not_found_witness :
    process_query ⟨[1], [], [], []⟩ "q" (some 2) (.ok [])
        (fun _ => .error (.provider "e")) true =
      (.error (.notFound 2), ⟨[1], [], [], []⟩) ∧
    process_query ⟨[1], [], [], []⟩ "q" (some 0) (.ok [])
        (fun _ => .error (.provider "e")) true =
      process_query ⟨[1], [], [], []⟩ "q" none (.ok [])
        (fun _ => .error (.provider "e")) true :=
  ⟨((process_query_not_found ⟨[1], [], [], []⟩ "q" 2 (.ok [])
      (fun _ => .error (.provider "e")) true (by decide)).1 (by decide)).1,
   (process_query_not_found ⟨[1], [], [], []⟩ "q" 0 (.ok [])
      (fun _ => .error (.provider "e")) true (by decide)).2 rfl⟩

/-- C1: whenever `process_query` returns normally from a fresh session,
exactly one `user` message carrying the raw query and then exactly one
`assistant` message carrying the generated content — with metadata recording
the model name, the token usage and the retrieved-source count — are appended
to the resolved conversation, in that order, and both become committed
together by the single `commit` of the request's transaction scope (the
pending set is empty afterwards; no intermediate commit occurs). -/
theorem process_query_appends_user_then_assistant
    (s : RAGState) (query : String) (conversation_id : Option ℕ)
    (retrieval : Except RagError (List (RetrievedChunk × ℚ)))
    (llm : List ChatMsg → Except RagError LLMResponse) (include_sources : Bool)
    (resp : RAGQueryResponse) (s' : RAGState)
    (hpend : s.pendingMessages = [])
    (h : process_query s query conversation_id retrieval llm include_sources =
      (.ok resp, s')) :
    ∃ (cid : ℕ) (chunks : List (RetrievedChunk × ℚ)) (lr : LLMResponse),
      retrieval = .ok chunks ∧
      llm (_build_prompt query chunks none) = .ok lr ∧
      s'.messages = s.messages ++
        [{ conversation_id := cid, role := "user", content := query },
         { conversation_id := cid, role := "assistant", content := lr.content
           meta_model := some lr.model, meta_usage := some lr.usage
           meta_sources_count := some chunks.length }] ∧
      s'.pendingMessages = [] ∧
      resp.response = lr.content ∧
      resp.conversation_id = cid := by
  cases hco : _get_or_create_conversation s conversation_id with
  | error e =>
    simp only [process_query, hco] at h
    exact absurd h (by simp)
  | ok p =>
    obtain ⟨cid, s1⟩ := p
    obtain ⟨hm, hp, -⟩ := get_or_create_ok_state s conversation_id cid s1 hco
    cases retrieval with
    | error e =>
      simp only [process_query, hco] at h
      exact absurd h (by simp)
    | ok chunks =>
      simp only [process_query, hco] at h
      cases hl : llm (_build_prompt query chunks none) with
      | error e =>
        rw [hl] at h
        exact absurd h (by simp)
      | ok lr =>
        rw [hl] at h
        simp only [Prod.mk.injEq, Except.ok.injEq] at h
        obtain ⟨hresp, hs'⟩ := h
        refine ⟨cid, chunks, lr, rfl, hl, ?_, ?_, ?_, ?_⟩
        · rw [← hs']
          simp [RAGState.commit, hm, hp, hpend]
        · rw [← hs']
          simp [RAGState.commit]
        · rw [← hresp]
        · rw [← hresp]

/-- Witness for C1: a concrete successful round-trip starting from an empty
database with no conversation id supplied. -/
theorem process_query_appends_user_then_assistant_witness :
    ∃ (cid : ℕ) (chunks : List (RetrievedChunk × ℚ)) (lr : LLMResponse),
      (Except.ok [] : Except RagError (List (RetrievedChunk × ℚ))) = .ok chunks ∧
      (fun _ => (Except.ok ⟨"ans", "gpt-5-nano", ⟨1, 2, 3⟩, "stop"⟩ :
          Except RagError LLMResponse)) (_build_prompt "q" chunks none) = .ok lr ∧
      (⟨[1], [⟨1, "user", "q", none, none, none⟩,
              ⟨1, "assistant", "ans", some "gpt-5-nano", some ⟨1, 2, 3⟩, some 0⟩],
        [], []⟩ : RAGState).messages = ([] : List MessageRow) ++
        [{ conversation_id := cid, role := "user", content := "q" },
         { conversation_id := cid, role := "assistant", content := lr.content
           meta_model := some lr.model, meta_usage := some lr.usage
           meta_sources_count := some chunks.length }] ∧
      (⟨[1], [⟨1, "user", "q", none, none, none⟩,
              ⟨1, "assistant", "ans", some "gpt-5-nano", some ⟨1, 2, 3⟩, some 0⟩],
        [], []⟩ : RAGState).pendingMessages = [] ∧
      ({ conversation_id := 1, message_id := 1, query := "q", response := "ans"
         sources := [], meta_model := "gpt-5-nano", meta_usage := ⟨1, 2, 3⟩
         retrieved_chunks := 0 } : RAGQueryResponse).response = lr.content ∧
      ({ conversation_id := 1, message_id := 1, query := "q", response := "ans"
         sources := [], meta_model := "gpt-5-nano", meta_usage := ⟨1, 2, 3⟩
         retrieved_chunks := 0 } : RAGQueryResponse).conversation_id = cid :=
  process_query_appends_user_then_assistant ⟨[], [], [], []⟩ "q" none (.ok [])
    (fun _ => .ok ⟨"ans", "gpt-5-nano", ⟨1, 2, 3⟩, "stop"⟩) true
    { conversation_id := 1, message_id := 1, query := "q", response := "ans"
      sources := [], meta_model := "gpt-5-nano", meta_usage := ⟨1, 2, 3⟩
      retrieved_chunks := 0 }
    ⟨[1], [⟨1, "user", "q", none, none, none⟩,
           ⟨1, "assistant", "ans", some "gpt-5-nano", some ⟨1, 2, 3⟩, some 0⟩], [], []⟩
    rfl rfl

/-- C3: when the embedding provider fails on all three retry attempts during
ingestion, `create_document` fails with that provider error, no chunk is
persisted, and the flushed document row is rolled back with the rest of the
batch: the committed tables are exactly as before the call. -/
theorem create_document_provider_failure_rolls_back
    (s : DocState) (title content : String) (cfg : Settings)
    (embedProvider : ℕ → Except RagError (List (List ℚ)))
    (hfail : ∀ n, n < 3 → ∃ msg, embedProvider n = .error (.provider msg)) :
    (∃ msg, create_document s title content cfg embedProvider =
      (.error (.provider msg), s.rollback)) ∧
    (s.rollback).documents = s.documents ∧
    (s.rollback).chunks = s.chunks ∧
    (s.rollback).pendingDocuments = [] ∧
    (s.rollback).pendingChunks = [] := by
  refine ⟨?_, rfl, rfl, rfl, rfl⟩
  obtain ⟨m0, h0⟩ := hfail 0 (by omega)
  obtain ⟨m1, h1⟩ := hfail 1 (by omega)
  obtain ⟨m2, h2⟩ := hfail 2 (by omega)
  refine ⟨m2, ?_⟩
  have hretry : retryThrice embedProvider = .error (.provider m2) := by
    unfold retryThrice
    rw [h0, h1, h2]
  unfold create_document add_document_chunks
  rw [hretry]
  rfl

/-- Witness for C3: a concrete ingest against a provider that always fails. -/
theorem create_document_provider_failure_rolls_back_witness :
    (∃ msg, create_document ⟨[⟨1, "t", "c"⟩], [⟨1, "c", 0, [1]⟩], [], []⟩ "t2" "hello"
        ⟨"gpt-5-nano", 0, 2048, 5, 0, 4, 1⟩ (fun _ => .error (.provider "boom")) =
      (.error (.provider msg),
        (⟨[⟨1, "t", "c"⟩], [⟨1, "c", 0, [1]⟩], [], []⟩ : DocState).rollback)) ∧
    ((⟨[⟨1, "t", "c"⟩], [⟨1, "c", 0, [1]⟩], [], []⟩ : DocState).rollback).documents =
      [⟨1, "t", "c"⟩] ∧
    ((⟨[⟨1, "t", "c"⟩], [⟨1, "c", 0, [1]⟩], [], []⟩ : DocState).rollback).chunks =
      [⟨1, "c", 0, [1]⟩] ∧
    ((⟨[⟨1, "t", "c"⟩], [⟨1, "c", 0, [1]⟩], [], []⟩ : DocState).rollback).pendingDocuments = [] ∧
    ((⟨[⟨1, "t", "c"⟩], [⟨1, "c", 0, [1]⟩], [], []⟩ : DocState).rollback).pendingChunks = [] :=
  create_document_provider_failure_rolls_back
    ⟨[⟨1, "t", "c"⟩], [⟨1, "c", 0, [1]⟩], [], []⟩ "t2" "hello"
    ⟨"gpt-5-nano", 0, 2048, 5, 0, 4, 1⟩ (fun _ => .error (.provider "boom"))
    (fun _ _ => ⟨"boom", rfl⟩)

/-- Witness for C9's amended theorem at a concrete query and history. -/
theorem build_prompt_amended_witness :
    (_build_prompt "hi" []
        (some [{ conversation_id := 1, role := "user", content := "prev" }])).getLast? =
      some { role := "user", content := noContextUserMessage "hi" } ∧
    ((_build_prompt "hi" []
        (some [{ conversation_id := 1, role := "user", content := "prev" }])).filter
      (fun m => m.role == "system")).length = 1 :=
  ⟨(build_prompt_amended "hi" []
      (some [{ conversation_id := 1, role := "user", content := "prev" }])).2.2 rfl,
   (build_prompt_amended "hi" []
      (some [{ conversation_id := 1, role := "user", content := "prev" }])).2.1 (by decide)⟩

end RagWithGpt
